import Mathlib

/-!
# Verification of the pysheds JSON + NumPy serializer

Shallow embedding of `src/pysheds/serializer.py` (class `PyshedsSerializer`):
`save_sgrid` / `load_sgrid`, `save_raster` / `load_raster`,
`save_objects` / `load_objects`.

Modelling conventions:

* The filesystem is a list of `(FileKey, FileContent)` write events; a load
  reads through `fsOf`, which gives later writes precedence.
* Paths are structured (`BasePath` + suffix) rather than raw strings; the
  string form a path would have on disk is `FileKey.render`.  This keeps the
  model faithful up to the underscore-joining of path fragments.
* JSON documents are modelled as a value tree (`Json`).  A `Json.num` node
  carries the exact rational value of the (binary64) float it holds; Python's
  `json.dump`/`json.load` round-trips binary64 values exactly, so reading and
  writing JSON is value-preserving in the model.  Infinities and the textual
  layer of JSON are outside the model.
* NumPy scalars are modelled by `PyNum`: exact integers for the signed
  integer dtypes and exact dyadic rationals for the float dtypes, plus a
  single `nan` value (NaN payloads are not distinguished).  The lossy
  conversions the serializer performs are modelled exactly:
  `float(int)` is round-to-nearest-even into 53 significant bits
  (`f64ofInt`), `np.float32(x)` is round-to-nearest-even into 24 significant
  bits with the subnormal cutoff at `2 ^ (-149)` (`npF32`; overflow to
  infinity beyond the float32 range is not modelled), and `np.int16/32/64(x)`
  truncate toward zero (`truncQ`; the native out-of-range behaviour of these
  casts is not modelled).
* `np.savez_compressed` / `np.load` store named arrays bit-exactly; an
  `NdArray` is an opaque (shape, dtype name, cell payload) record.
* `sGrid`, `Raster`, `MultiRaster`, `ViewFinder` (from `pysheds.sview` /
  `pysheds.sgrid`) and `pysheds.projection.to_proj` are not part of the
  sources; they are modelled from the spec where marked below.  The external
  `affine.Affine` value is modelled per spec section 6 as a value
  constructible from / decomposable to its 6 coefficients.
* Python exceptions are modelled by `Except SerErr`; the error constructor
  follows the spec's taxonomy (`NotFoundError`, `FormatError`,
  `UnsupportedTypeError`), mapped by raise site.
-/

/-! ## Exact models of the numeric casts -/

/-- Fuel-driven floor of the base-2 logarithm; `ilog2Aux fuel n` is exact
whenever `n < 2 ^ fuel`. Structural recursion on the fuel keeps it
kernel-reducible. -/
def ilog2Aux : Nat → Nat → Nat
  | 0, _ => 0
  | fuel + 1, n => if 2 ≤ n then ilog2Aux fuel (n / 2) + 1 else 0

/-- Floor of the base-2 logarithm, exact for `n < 2 ^ 96`; the serializer only
applies it to magnitudes below `2 ^ 64`. -/
def ilog2 (n : Nat) : Nat := ilog2Aux 96 n

/-- Round a natural number to the nearest value representable with a 53-bit
significand (ties to even), i.e. to the nearest binary64 value.  Exact for
`n < 2 ^ 96`, which covers every integer dtype the serializer handles. -/
def f64ofNat (n : Nat) : Nat :=
  if n ≤ 2 ^ 53 then n
  else
    let s := ilog2 n - 52
    let q := n / 2 ^ s
    let r := n % 2 ^ s
    let h := 2 ^ (s - 1)
    let q2 := if h < r then q + 1 else if r < h then q else if q % 2 = 0 then q else q + 1
    q2 * 2 ^ s

/-- Model of Python `float(i)` on an integer: round to the nearest binary64
value (an integer again, in the ranges involved). -/
def f64ofInt (i : Int) : Int :=
  if 0 ≤ i then (f64ofNat i.toNat : Int) else -(f64ofNat (-i).toNat : Int)

/-- Model of the C-style float-to-integer conversion used by the
`np.int16/int32/int64` casts: truncation toward zero. -/
def truncQ (q : ℚ) : Int := if 0 ≤ q then ⌊q⌋ else ⌈q⌉

/-- Floor of the base-2 logarithm of `|q|`, as an integer (for `q ≠ 0`).
Computed from the numerator's and denominator's `Nat.log2` with a one-step
correction. -/
def qlog2 (q : ℚ) : Int :=
  let g : Int := (Nat.log2 q.num.natAbs : Int) - (Nat.log2 q.den : Int)
  if (2 : ℚ) ^ (g + 1) ≤ |q| then g + 1 else if (2 : ℚ) ^ g ≤ |q| then g else g - 1

/-- Round `q` to the nearest integer multiple of `2 ^ e`, ties to the even
multiple. -/
def roundAt (e : Int) (q : ℚ) : ℚ :=
  let m : ℚ := q / 2 ^ e
  let fl : Int := ⌊m⌋
  let fr : ℚ := m - fl
  let n : Int := if fr < 1 / 2 then fl else if 1 / 2 < (fr : ℚ) then fl + 1 else
    if fl % 2 = 0 then fl else fl + 1
  (n : ℚ) * 2 ^ e

/-- Model of the `np.float32` cast on a finite binary64 value: round to
nearest-even at 24 significant bits, with the rounding grid clamped at the
float32 subnormal cutoff `2 ^ (-149)`.  Overflow to infinity (inputs of
magnitude `≥ 2 ^ 128`) is not modelled; no theorem below evaluates the cast
there. -/
def npF32 (q : ℚ) : ℚ :=
  if q = 0 then 0 else roundAt (max (qlog2 q - 23) (-149)) q

/-- The finite values representable in IEEE binary32. -/
def IsF32 (q : ℚ) : Prop :=
  ∃ m e : Int, m.natAbs < 2 ^ 24 ∧ -149 ≤ e ∧ e ≤ 104 ∧ q = (m : ℚ) * 2 ^ e

/-- The finite values representable in IEEE binary64. -/
def IsF64 (q : ℚ) : Prop :=
  ∃ m e : Int, m.natAbs < 2 ^ 53 ∧ -1074 ≤ e ∧ e ≤ 971 ∧ q = (m : ℚ) * 2 ^ e

/-! ## Scalars, JSON values, arrays, paths, files -/

/-- A NumPy scalar as the serializer sees it: the nodata sentinel of a
viewfinder.  A single `nan` value stands for NaN of either float width. -/
inductive PyNum where
  | nan : PyNum
  | i16 : Int → PyNum
  | i32 : Int → PyNum
  | i64 : Int → PyNum
  | f32 : ℚ → PyNum
  | f64 : ℚ → PyNum
  deriving DecidableEq

/-- Model of `np.isnan` on a scalar. -/
def PyNum.isnan : PyNum → Bool
  | .nan => true
  | _ => false

/-- Model of Python `float(x)` on a non-NaN scalar: exact on binary32 and
binary64 values, rounding on integers.  (Never applied to `nan` by the
serializer: every call site is guarded by `np.isnan`.) -/
def pyFloat : PyNum → ℚ
  | .nan => 0
  | .i16 n => (f64ofInt n : Int)
  | .i32 n => (f64ofInt n : Int)
  | .i64 n => (f64ofInt n : Int)
  | .f32 q => q
  | .f64 q => q

/-- Ranges of the in-memory scalar representations: a well-formed scalar's
value fits its own dtype. -/
def PyNum.wf : PyNum → Prop
  | .nan => True
  | .i16 n => n.natAbs ≤ 2 ^ 15
  | .i32 n => n.natAbs ≤ 2 ^ 31
  | .i64 n => n.natAbs ≤ 2 ^ 63
  | .f32 q => IsF32 q
  | .f64 q => IsF64 q

/-- JSON value trees, as produced by `json.dump` and consumed by
`json.load`. -/
inductive Json where
  | null : Json
  | bool : Bool → Json
  | num : ℚ → Json
  | str : String → Json
  | arr : List Json → Json
  | obj : List (String × Json) → Json

/-- First-match association lookup, the model of indexing a parsed JSON
object (Python `dict` keys are unique, so first-match is exact). -/
def assocFind {α : Type} : List (String × α) → String → Option α
  | [], _ => none
  | (k, v) :: rest, key => if key = k then some v else assocFind rest key

/-- Model of `metadata[key]` on a parsed JSON document: `none` models the
`KeyError` for a missing key or for indexing a non-object. -/
def jGet : Json → String → Option Json
  | .obj kvs, key => assocFind kvs key
  | _, _ => none

/-- An n-dimensional array as stored in an `.npz` entry: shape, dtype name
and an opaque cell payload, all preserved bit-exactly by
`np.savez_compressed` / `np.load`. -/
structure NdArray where
  shape : List Nat
  dtype : String
  cells : List Int
  deriving DecidableEq

/-- A base path: the original `base_filename` string plus the name fragments
appended by `save_objects` (each rendered as an underscore-joined
fragment). -/
structure BasePath where
  root : String
  names : List String
  deriving DecidableEq

/-- Model of the f-string `base_path ++ "_" ++ name` used by
`save_objects` / `load_objects` to derive a per-entity base path. -/
def BasePath.sub (b : BasePath) (name : String) : BasePath :=
  BasePath.mk b.root (b.names ++ [name])

/-- A concrete file name: a base path plus the literal suffix the serializer
appends (one of `"_grid.json"`, `"_raster.json"`, `"_data.npz"`,
`"_mask.npz"`, `"_index.json"`, `".json"`). -/
structure FileKey where
  base : BasePath
  suffix : String
  deriving DecidableEq

/-- The string this path has on disk. -/
def FileKey.render (k : FileKey) : String :=
  k.base.root ++ k.base.names.foldl (fun acc n => acc ++ "_" ++ n) "" ++ k.suffix

/-- File contents: a JSON document or a compressed archive of named
arrays. -/
inductive FileContent where
  | json : Json → FileContent
  | npz : List (String × NdArray) → FileContent

/-- Read a file out of a list of write events; a later write to the same key
wins. -/
def fsOf : List (FileKey × FileContent) → FileKey → Option FileContent
  | [], _ => none
  | (k0, c) :: rest, k =>
      match fsOf rest k with
      | some c2 => some c2
      | none => if k = k0 then some c else none

/-- Look up a named array in a loaded `.npz` archive; `none` models the
`KeyError` for a missing entry. -/
def npzGet (entries : List (String × NdArray)) (key : String) : Option NdArray :=
  assocFind entries key

/-! ## The pysheds object model (spec-modelled where noted) -/

/-- Modelled from the spec (section 6): the external `affine.Affine` value,
an affine transform constructible from and decomposable to its 6
coefficients.  `list(a)` is `[a.a, a.b, a.c, a.d, a.e, a.f]` and
`Affine(*coeffs)` rebuilds it from those 6 numbers. -/
structure AffineT where
  a : ℚ
  b : ℚ
  c : ℚ
  d : ℚ
  e : ℚ
  f : ℚ
  deriving DecidableEq

/-- Modelled from the spec (sections 3 and 4.1): `pysheds.sview.ViewFinder`,
the Geo-Descriptor bundle (affine transform, grid shape, nodata sentinel,
boolean validity mask, CRS).  The CRS is kept in its canonical text form,
per spec section 3. -/
structure ViewFinder where
  affine : AffineT
  shape : List Nat
  nodata : PyNum
  mask : NdArray
  crs : String
  deriving DecidableEq

/-- Error taxonomy from spec section 7, with raises mapped by site:
missing file to `notFound`, kind-tag / malformed-field failures to
`formatError`, the unsupported-dtype raise in `load_raster` to
`unsupportedType`. -/
inductive SerErr where
  | notFound : SerErr
  | formatError : SerErr
  | unsupportedType : SerErr
  deriving DecidableEq

/-- Modelled from the spec (sections 3 and 4.1): constructing a `ViewFinder`
during a load fails with `FormatError` when the mask's shape does not match
the declared grid shape (invariant `mask.shape == shape`). -/
def mkViewFinder (a : AffineT) (sh : List Nat) (nd : PyNum) (mask : NdArray)
    (crs : String) : Except SerErr ViewFinder :=
  if mask.shape = sh then .ok (ViewFinder.mk a sh nd mask crs) else .error .formatError

/-- Modelled from the spec (section 2): `pysheds.sgrid.sGrid`, a grid-only
entity carrying just its Geo-Descriptor. -/
structure SGrid where
  viewfinder : ViewFinder
  deriving DecidableEq

/-- Modelled from the spec (sections 2 and 3): `pysheds.sview.Raster` and
`MultiRaster`, a data array plus Geo-Descriptor plus free-form metadata;
`multi` is true for the `MultiRaster` variant.  `raster.shape` and
`raster.dtype` are the data array's own (ndarray-subclass semantics), and
`np.asarray(raster)` is the data array. -/
structure Raster where
  data : NdArray
  viewfinder : ViewFinder
  metadata : Json
  multi : Bool

/-- An arbitrary value passed to `save_objects`: one of the three supported
variants, or anything else (carrying only the display name of its type). -/
inductive PyObj where
  | grid : SGrid → PyObj
  | raster : Raster → PyObj
  | other : String → PyObj

/-- Modelled from the spec (section 6): `pysheds.projection.to_proj`, the
string-to-CRS resolver; its result is the CRS whose canonical text form is
the input string. -/
def toProj (s : String) : String := s

/-! ## Field encoders / decoders -/

/-- Encoding of a shape tuple into JSON (`json.dump` of a tuple of ints). -/
def encodeShape (sh : List Nat) : Json := .arr (sh.map fun (n : ℕ) => .num (n : ℚ))

/-- Auxiliary decoder for a list of non-negative integer JSON numbers. -/
def parseDims : List Json → Except SerErr (List Nat)
  | [] => .ok []
  | .num q :: rest =>
      if q.den = 1 ∧ 0 ≤ q.num then
        match parseDims rest with
        | .ok ns => .ok (q.num.toNat :: ns)
        | .error e => .error e
      else .error .formatError
  | _ => .error .formatError

/-- Decoding of `tuple(metadata[...])` for a shape field: a JSON array of
non-negative integers (anything else is a malformed shape per spec
section 7). -/
def parseShape : Json → Except SerErr (List Nat)
  | .arr xs => parseDims xs
  | _ => .error .formatError

/-- Encoding of `list(vf.affine)`. -/
def encodeAffine (t : AffineT) : Json :=
  .arr [.num t.a, .num t.b, .num t.c, .num t.d, .num t.e, .num t.f]

/-- Decoding of `Affine(*metadata['affine'])`: exactly 6 numeric
coefficients; anything else raises. -/
def parseAffine : Json → Except SerErr AffineT
  | .arr [.num a, .num b, .num c, .num d, .num e, .num f] =>
      .ok (AffineT.mk a b c d e f)
  | _ => .error .formatError

/-- Encoding of the nodata field, from `save_sgrid` line 39 and
`save_raster` line 128: `float(vf.nodata) if not np.isnan(vf.nodata) else
'nan'`. -/
def encodeNodata (nd : PyNum) : Json :=
  if nd.isnan then .str "nan" else .num (pyFloat nd)

/-- NumPy dtype kind classification (`np.issubdtype(d, np.floating)` /
`np.issubdtype(d, np.integer)`), for the dtype names this development
touches; names outside the table model an unresolvable dtype string. -/
inductive NpKind where
  | floating : NpKind
  | integer : NpKind
  | boolean : NpKind
  | complexK : NpKind
  deriving DecidableEq

/-- Dtype-name table backing `np.dtype(name)` plus the kind tests.  Note
that the unsigned integer dtypes are of kind `integer`
(`np.issubdtype(np.uint8, np.integer)` holds). -/
def npDtypeKind : String → Option NpKind
  | "float16" => some .floating
  | "float32" => some .floating
  | "float64" => some .floating
  | "int8" => some .integer
  | "int16" => some .integer
  | "int32" => some .integer
  | "int64" => some .integer
  | "uint8" => some .integer
  | "uint16" => some .integer
  | "uint32" => some .integer
  | "uint64" => some .integer
  | "bool" => some .boolean
  | "complex64" => some .complexK
  | "complex128" => some .complexK
  | _ => none

/-- Model of `load_raster` lines 177-197: resolve the stored nodata field.
A stored `'nan'` marker short-circuits to NaN with no dtype inspection;
a stored number is cast through the branch ladder on the declared data
dtype: `float32` else `float64` among floating kinds, `int16` / `int32`
else `int64` among integer kinds, and any other kind raises the
unsupported-dtype error.  The second argument is `metadata['data_dtype']`
(`none` models the KeyError of a missing key, reached only on the numeric
branch). -/
def resolveNodata (jn : Json) (jd : Option Json) : Except SerErr PyNum :=
  match jn with
  | .str s => if s = "nan" then .ok .nan else .error .formatError
  | .num q =>
      match jd with
      | some (.str d) =>
          match npDtypeKind d with
          | some .floating =>
              if d = "float32" then .ok (.f32 (npF32 q)) else .ok (.f64 q)
          | some .integer =>
              if d = "int16" then .ok (.i16 (truncQ q))
              else if d = "int32" then .ok (.i32 (truncQ q))
              else .ok (.i64 (truncQ q))
          | some _ => .error .unsupportedType
          | none => .error .formatError
      | _ => .error .formatError
  | _ => .error .formatError

/-- Model of `load_sgrid` lines 82-86: a stored `'nan'` marker becomes NaN,
a stored number becomes an `np.float64` value. -/
def resolveNodataSgrid (jn : Json) : Except SerErr PyNum :=
  match jn with
  | .str s => if s = "nan" then .ok .nan else .error .formatError
  | .num q => .ok (.f64 q)
  | _ => .error .formatError

/-! ## Entity codec: sGrid -/

/-- The JSON descriptor built by `save_sgrid` (lines 35-43). -/
def sgridDesc (g : SGrid) : Json :=
  .obj [("type", .str "sGrid"),
        ("affine", encodeAffine g.viewfinder.affine),
        ("shape", encodeShape g.viewfinder.shape),
        ("nodata", encodeNodata g.viewfinder.nodata),
        ("crs", .str g.viewfinder.crs),
        ("mask_shape", encodeShape g.viewfinder.mask.shape),
        ("mask_dtype", .str g.viewfinder.mask.dtype)]

/-- Model of `PyshedsSerializer.save_sgrid`: the ordered writes it performs
(the spurious `mkdir` of the base path and the console print carry no
serialization content and are not modelled). -/
def saveSgrid (g : SGrid) (b : BasePath) : List (FileKey × FileContent) :=
  [(FileKey.mk b "_grid.json", .json (sgridDesc g)),
   (FileKey.mk b "_mask.npz", .npz [("mask", g.viewfinder.mask)])]

/-- Model of `PyshedsSerializer.load_sgrid`. -/
def loadSgrid (fs : FileKey → Option FileContent) (b : BasePath) :
    Except SerErr SGrid :=
  match fs (FileKey.mk b "_grid.json") with
  | none => .error .notFound
  | some (.npz _) => .error .formatError
  | some (.json meta) =>
      match jGet meta "type" with
      | none => .error .formatError
      | some (.str ty) =>
          if ty = "sGrid" then
            match fs (FileKey.mk b "_mask.npz") with
            | none => .error .notFound
            | some (.json _) => .error .formatError
            | some (.npz maskEntries) =>
                match npzGet maskEntries "mask" with
                | none => .error .formatError
                | some mask =>
                    match jGet meta "nodata" with
                    | none => .error .formatError
                    | some jn =>
                        match resolveNodataSgrid jn with
                        | .error e => .error e
                        | .ok nd =>
                            match jGet meta "affine" with
                            | none => .error .formatError
                            | some ja =>
                                match parseAffine ja with
                                | .error e => .error e
                                | .ok aff =>
                                    match jGet meta "shape" with
                                    | none => .error .formatError
                                    | some js =>
                                        match parseShape js with
                                        | .error e => .error e
                                        | .ok sh =>
                                            match jGet meta "crs" with
                                            | some (.str cs) =>
                                                match mkViewFinder aff sh nd mask (toProj cs) with
                                                | .error e => .error e
                                                | .ok vf => .ok (SGrid.mk vf)
                                            | _ => .error .formatError
          else .error .formatError
      | some _ => .error .formatError

/-! ## Entity codec: Raster / MultiRaster -/

/-- The kind tag `save_raster` computes at line 119:
`'MultiRaster' if isinstance(raster, MultiRaster) else 'Raster'`. -/
def rasterTag (r : Raster) : String := if r.multi then "MultiRaster" else "Raster"

/-- The JSON descriptor built by `save_raster` (lines 122-133). -/
def rasterDesc (r : Raster) : Json :=
  .obj [("type", .str (rasterTag r)),
        ("data_shape", encodeShape r.data.shape),
        ("data_dtype", .str r.data.dtype),
        ("affine", encodeAffine r.viewfinder.affine),
        ("viewfinder_shape", encodeShape r.viewfinder.shape),
        ("nodata", encodeNodata r.viewfinder.nodata),
        ("crs", .str r.viewfinder.crs),
        ("mask_shape", encodeShape r.viewfinder.mask.shape),
        ("mask_dtype", .str r.viewfinder.mask.dtype),
        ("metadata", r.metadata)]

/-- Model of `PyshedsSerializer.save_raster`: the ordered writes it
performs. -/
def saveRaster (r : Raster) (b : BasePath) : List (FileKey × FileContent) :=
  [(FileKey.mk b "_raster.json", .json (rasterDesc r)),
   (FileKey.mk b "_data.npz", .npz [("data", r.data)]),
   (FileKey.mk b "_mask.npz", .npz [("mask", r.viewfinder.mask)])]

/-- Model of `PyshedsSerializer.load_raster`. -/
def loadRaster (fs : FileKey → Option FileContent) (b : BasePath) :
    Except SerErr Raster :=
  match fs (FileKey.mk b "_raster.json") with
  | none => .error .notFound
  | some (.npz _) => .error .formatError
  | some (.json meta) =>
      match jGet meta "type" with
      | none => .error .formatError
      | some (.str ty) =>
          if ty = "Raster" ∨ ty = "MultiRaster" then
            match fs (FileKey.mk b "_data.npz") with
            | none => .error .notFound
            | some (.json _) => .error .formatError
            | some (.npz dataEntries) =>
                match npzGet dataEntries "data" with
                | none => .error .formatError
                | some data =>
                    match fs (FileKey.mk b "_mask.npz") with
                    | none => .error .notFound
                    | some (.json _) => .error .formatError
                    | some (.npz maskEntries) =>
                        match npzGet maskEntries "mask" with
                        | none => .error .formatError
                        | some mask =>
                            match jGet meta "nodata" with
                            | none => .error .formatError
                            | some jn =>
                                match resolveNodata jn (jGet meta "data_dtype") with
                                | .error e => .error e
                                | .ok nd =>
                                    match jGet meta "affine" with
                                    | none => .error .formatError
                                    | some ja =>
                                        match parseAffine ja with
                                        | .error e => .error e
                                        | .ok aff =>
                                            match jGet meta "viewfinder_shape" with
                                            | none => .error .formatError
                                            | some js =>
                                                match parseShape js with
                                                | .error e => .error e
                                                | .ok sh =>
                                                    match jGet meta "crs" with
                                                    | some (.str cs) =>
                                                        match mkViewFinder aff sh nd mask (toProj cs) with
                                                        | .error e => .error e
                                                        | .ok vf =>
                                                            match jGet meta "metadata" with
                                                            | none => .error .formatError
                                                            | some md =>
                                                                .ok (Raster.mk data vf md (ty = "MultiRaster"))
                                                    | _ => .error .formatError
          else .error .formatError
      | some _ => .error .formatError

/-! ## Archive index: save_objects / load_objects -/

/-- The warning `save_objects` prints for an entry it cannot dispatch. -/
def warnMsg (name tyName : String) : String :=
  "Warning: Object " ++ name ++ " of type " ++ tyName ++ " not supported"

/-- The files one entry of `save_objects` actually writes (dispatch at lines
236-254): the per-entity save under base path `b_name`, or nothing for an
unsupported object. -/
def entityWrites (b : BasePath) : String × PyObj → List (FileKey × FileContent)
  | (n, .grid g) => saveSgrid g (b.sub n)
  | (n, .raster r) => saveRaster r (b.sub n)
  | (_, .other _) => []

/-- The file names one entry of `save_objects` records in `saved_files`
(lines 240-252).  Note the descriptor file is recorded with a bare `.json`
suffix even though the per-entity save writes `_grid.json` or
`_raster.json`. -/
def entityRecorded (b : BasePath) : String × PyObj → List FileKey
  | (n, .grid _) =>
      [FileKey.mk (b.sub n) ".json", FileKey.mk (b.sub n) "_mask.npz"]
  | (n, .raster _) =>
      [FileKey.mk (b.sub n) ".json", FileKey.mk (b.sub n) "_data.npz",
       FileKey.mk (b.sub n) "_mask.npz"]
  | (_, .other _) => []

/-- The `objects` index entry one entry of `save_objects` contributes. -/
def entityIdx : String × PyObj → List (String × String)
  | (n, .grid _) => [(n, "sGrid")]
  | (n, .raster r) => [(n, rasterTag r)]
  | (_, .other _) => []

/-- The warning one entry of `save_objects` prints. -/
def entityWarn : String × PyObj → List String
  | (n, .other t) => [warnMsg n t]
  | _ => []

/-- The index document `save_objects` persists at `base_index.json`. -/
def indexJson (idx : List (String × String)) (files : List FileKey) : Json :=
  .obj [("objects", .obj (idx.map fun p => (p.1, Json.str p.2))),
        ("saved_files", .arr (files.map fun k => Json.str k.render))]

/-- The result of a `save_objects` call: the ordered write events, the
accumulated `objects` mapping, the recorded `saved_files`, and the warnings
printed. -/
structure SaveOut where
  writes : List (FileKey × FileContent)
  objectsIdx : List (String × String)
  savedFiles : List FileKey
  warnings : List String

/-- Model of `PyshedsSerializer.save_objects`: dispatch every entry in
order, then write the index file last. -/
def saveObjects (objs : List (String × PyObj)) (b : BasePath) : SaveOut :=
  let idx := (objs.map entityIdx).flatten
  let files := (objs.map (entityRecorded b)).flatten
  SaveOut.mk
    ((objs.map (entityWrites b)).flatten ++
      [(FileKey.mk b "_index.json", .json (indexJson idx files))])
    idx files ((objs.map entityWarn).flatten)

/-- Per-entry dispatch of `load_objects` (lines 284-288), iterating the
parsed `objects` mapping in order: recognized kinds load through the
matching loader at base path `b_name`, anything else is skipped. -/
def loadEach (fs : FileKey → Option FileContent) (b : BasePath) :
    List (String × Json) → Except SerErr (List (String × PyObj))
  | [] => .ok []
  | (n, .str k) :: rest =>
      if k = "sGrid" then
        match loadSgrid fs (b.sub n) with
        | .error e => .error e
        | .ok g =>
            match loadEach fs b rest with
            | .error e => .error e
            | .ok out => .ok ((n, .grid g) :: out)
      else if k = "Raster" ∨ k = "MultiRaster" then
        match loadRaster fs (b.sub n) with
        | .error e => .error e
        | .ok r =>
            match loadEach fs b rest with
            | .error e => .error e
            | .ok out => .ok ((n, .raster r) :: out)
      else loadEach fs b rest
  | (_, _) :: rest => loadEach fs b rest

/-- Model of `PyshedsSerializer.load_objects`. -/
def loadObjects (fs : FileKey → Option FileContent) (b : BasePath) :
    Except SerErr (List (String × PyObj)) :=
  match fs (FileKey.mk b "_index.json") with
  | none => .error .notFound
  | some (.npz _) => .error .formatError
  | some (.json index) =>
      match jGet index "objects" with
      | some (.obj kvs) => loadEach fs b kvs
      | _ => .error .formatError

/-- The reconstruction `load_objects` performs for one index entry, phrased
as the claim describes it: entries with a recognized kind tag map to the
entity loaded by the matching loader, all others to nothing. -/
def reconOf (G : String → SGrid) (R : String → Raster) :
    String × Json → Option (String × PyObj)
  | (n, .str k) =>
      if k = "sGrid" then some (n, .grid (G n))
      else if k = "Raster" ∨ k = "MultiRaster" then some (n, .raster (R n))
      else none
  | (_, _) => none

/-- Whether an index entry's kind tag is one of the three recognized
kinds. -/
def recognizedKind : Json → Bool
  | .str k => k = "sGrid" || k = "Raster" || k = "MultiRaster"
  | _ => false

/-! ## Concrete example values for witnesses and counterexamples -/

/-- A concrete base path. -/
def bB : BasePath := BasePath.mk "B" []

/-- An all-true 3 by 3 boolean mask. -/
def mask33 : NdArray := NdArray.mk [3, 3] "bool" [1, 1, 1, 1, 1, 1, 1, 1, 1]

/-- An all-true 2 by 2 boolean mask. -/
def mask22 : NdArray := NdArray.mk [2, 2] "bool" [1, 1, 1, 1]

/-- The affine transform of the spec's section 8 example. -/
def aff0 : AffineT := AffineT.mk 1 0 0 0 (-1) 3

/-- The spec's section 8 example entity: a 3 by 3 int32 raster, nodata -1,
CRS EPSG 4326, all-true mask, metadata band 1. -/
def rEx : Raster :=
  Raster.mk (NdArray.mk [3, 3] "int32" [10, 20, 30, 40, 50, 60, 70, 80, 90])
    (ViewFinder.mk aff0 [3, 3] (.i32 (-1)) mask33 "EPSG:4326")
    (Json.obj [("band", Json.num 1)]) false

/-- A concrete grid-only entity with a floating nodata sentinel. -/
def gEx : SGrid :=
  SGrid.mk (ViewFinder.mk aff0 [2, 2] (.f64 (-9999)) mask22 "EPSG:4326")

/-- An int64 raster whose nodata sentinel `2 ^ 53 + 1` is not representable
in binary64. -/
def c1r : Raster :=
  Raster.mk (NdArray.mk [3, 3] "int64" [0, 1, 2, 3, 4, 5, 6, 7, 8])
    (ViewFinder.mk aff0 [3, 3] (.i64 9007199254740993) mask33 "EPSG:4326")
    (Json.obj [("band", Json.num 1)]) false

/-- An int64 raster with a NaN nodata sentinel. -/
def c4r : Raster :=
  Raster.mk (NdArray.mk [2, 2] "int64" [1, 2, 3, 4])
    (ViewFinder.mk aff0 [2, 2] .nan mask22 "EPSG:4326")
    (Json.obj [("unit", Json.str "m")]) true

/-- A raster whose declared data dtype `uint8` lies outside the spec's
whitelist, with a numeric nodata sentinel. -/
def c10r : Raster :=
  Raster.mk (NdArray.mk [2, 2] "uint8" [1, 2, 3, 4])
    (ViewFinder.mk aff0 [2, 2] (.i64 7) mask22 "EPSG:4326")
    (Json.obj []) false

/-- A family of NaN-nodata entities with an arbitrary declared data
dtype. -/
def nanRaster (d : String) : Raster :=
  Raster.mk (NdArray.mk [2, 2] d [1, 2, 3, 4])
    (ViewFinder.mk aff0 [2, 2] .nan mask22 "EPSG:4326") (Json.obj []) false

/-- A descriptor whose kind tag is none of the recognized values. -/
def badTagDesc : Json := Json.obj [("type", Json.str "Foo")]

/-- A filesystem holding `badTagDesc` under both descriptor names. -/
def badTagFs : FileKey → Option FileContent :=
  fsOf [(FileKey.mk bB "_grid.json", .json badTagDesc),
        (FileKey.mk bB "_raster.json", .json badTagDesc)]

/-- A mixed input to `save_objects`: two supported entities and one
unsupported object. -/
def objsEx : List (String × PyObj) :=
  [("a", .raster rEx), ("b", .grid gEx), ("c", .other "dict")]

/-- A handcrafted archive: a raster under `a`, a grid under `b`, and an
index whose third entry names an unsupported kind. -/
def c8Fs : FileKey → Option FileContent :=
  fsOf (saveRaster rEx (bB.sub "a") ++ saveSgrid gEx (bB.sub "b") ++
    [(FileKey.mk bB "_index.json",
      .json (Json.obj [("objects",
        Json.obj [("a", Json.str "Raster"), ("b", Json.str "sGrid"),
                  ("z", Json.str "Widget")])]))])

/-- The spec's dtype whitelist for data-bearing entities (section 4.2). -/
def dtypeWhitelist : List String := ["int16", "int32", "int64", "float32", "float64"]

/-- The nodata sentinel's runtime representation agrees with the declared
data dtype (spec section 3: nodata must be expressible in the dtype that
will consume it); a NaN sentinel is allowed with any dtype (spec
section 8). -/
def nodataMatches : String → PyNum → Prop
  | _, .nan => True
  | "int16", .i16 _ => True
  | "int32", .i32 _ => True
  | "int64", .i64 _ => True
  | "float32", .f32 _ => True
  | "float64", .f64 _ => True
  | _, _ => False

/-! ## Lemmas about the numeric casts -/

/-- Naturals up to `2 ^ 53` are binary64-exact. -/
theorem f64ofNat_eq_self (n : Nat) (h : n ≤ 2 ^ 53) : f64ofNat n = n := by
  unfold f64ofNat
  rw [if_pos h]

/-- Integers of magnitude up to `2 ^ 53` are binary64-exact under
`float(i)`. -/
theorem f64ofInt_eq_self (i : Int) (h : i.natAbs ≤ 2 ^ 53) : f64ofInt i = i := by
  unfold f64ofInt
  split
  · rw [f64ofNat_eq_self _ (by omega)]
    omega
  · rw [f64ofNat_eq_self _ (by omega)]
    omega

/-- Truncation toward zero is the identity on integers. -/
theorem truncQ_intCast (n : Int) : truncQ (n : ℚ) = n := by
  unfold truncQ
  split
  · exact Int.floor_intCast n
  · exact Int.ceil_intCast n

/-- Rounding to the grid of multiples of `2 ^ e` fixes every multiple of
`2 ^ e`. -/
theorem roundAt_eq_self (e : Int) (q : ℚ) (k : Int) (hk : q = (k : ℚ) * 2 ^ e) :
    roundAt e q = q := by
  have h2 : (2 : ℚ) ^ e ≠ 0 := zpow_ne_zero e two_ne_zero
  unfold roundAt
  rw [hk, mul_div_assoc, div_self h2, mul_one]
  norm_num [Int.floor_intCast]

/-- The absolute value of a rational as a quotient of naturals. -/
theorem abs_rat_eq (q : ℚ) : |q| = (q.num.natAbs : ℚ) / (q.den : ℚ) := by
  conv_lhs => rw [← Rat.num_div_den q]
  rw [abs_div, Int.cast_natAbs, Int.cast_abs,
    abs_of_pos (show (0 : ℚ) < (q.den : ℚ) by exact_mod_cast q.den_pos)]

/-- The corrected floor logarithm is a lower witness: `2 ^ qlog2 q` never
exceeds `|q|`. -/
theorem two_zpow_qlog2_le (q : ℚ) (hq : q ≠ 0) : (2 : ℚ) ^ qlog2 q ≤ |q| := by
  have hnum : q.num ≠ 0 := Rat.num_ne_zero.mpr hq
  have hn0 : q.num.natAbs ≠ 0 := Int.natAbs_ne_zero.mpr hnum
  have hlow : (2 : ℚ) ^ ((Nat.log2 q.num.natAbs : Int) - (Nat.log2 q.den : Int) - 1) < |q| := by
    have h1 : (2 : ℕ) ^ Nat.log2 q.num.natAbs ≤ q.num.natAbs := Nat.log2_self_le hn0
    have h2 : q.den < 2 ^ (Nat.log2 q.den + 1) := Nat.lt_log2_self
    have hd : (0 : ℚ) < (q.den : ℚ) := by exact_mod_cast q.den_pos
    have hpow : (0 : ℚ) < (2 : ℚ) ^ (Nat.log2 q.den + 1) := by positivity
    have c1 : ((2 : ℚ) ^ Nat.log2 q.num.natAbs) ≤ (q.num.natAbs : ℚ) := by
      exact_mod_cast h1
    have c2 : ((q.den : ℚ)) < (2 : ℚ) ^ (Nat.log2 q.den + 1) := by exact_mod_cast h2
    have key : ((2 : ℚ) ^ Nat.log2 q.num.natAbs) * (q.den : ℚ) <
        (q.num.natAbs : ℚ) * ((2 : ℚ) ^ (Nat.log2 q.den + 1)) :=
      calc ((2 : ℚ) ^ Nat.log2 q.num.natAbs) * (q.den : ℚ)
          < ((2 : ℚ) ^ Nat.log2 q.num.natAbs) * ((2 : ℚ) ^ (Nat.log2 q.den + 1)) :=
            mul_lt_mul_of_pos_left c2 (by positivity)
        _ ≤ (q.num.natAbs : ℚ) * ((2 : ℚ) ^ (Nat.log2 q.den + 1)) :=
            mul_le_mul_of_nonneg_right c1 (by positivity)
    have hz : (2 : ℚ) ^ ((Nat.log2 q.num.natAbs : Int) - (Nat.log2 q.den : Int) - 1) =
        ((2 : ℚ) ^ Nat.log2 q.num.natAbs) / ((2 : ℚ) ^ (Nat.log2 q.den + 1)) := by
      rw [show ((Nat.log2 q.num.natAbs : Int) - (Nat.log2 q.den : Int) - 1) =
          (Nat.log2 q.num.natAbs : Int) - ((Nat.log2 q.den + 1 : ℕ) : Int) by push_cast; ring]
      rw [zpow_sub₀ two_ne_zero, zpow_natCast, zpow_natCast]
    rw [abs_rat_eq q, hz, div_lt_div_iff₀ hpow hd]
    exact key
  simp only [qlog2]
  split_ifs with h1 h2
  · exact h1
  · exact h2
  · exact le_of_lt hlow

/-- The `np.float32` cast is the identity on binary32-representable
values. -/
theorem npF32_eq_self (q : ℚ) (h : IsF32 q) : npF32 q = q := by
  obtain ⟨m, e, hm, he, hU, rfl⟩ := h
  by_cases h0 : (m : ℚ) * 2 ^ e = 0
  · rw [h0]
    unfold npF32
    rw [if_pos rfl]
  · unfold npF32
    rw [if_neg h0]
    have habs : |(m : ℚ) * 2 ^ e| = |(m : ℚ)| * 2 ^ e := by
      have h2a : |(2 : ℚ) ^ e| = (2 : ℚ) ^ e := abs_of_pos (zpow_pos two_pos e)
      rw [abs_mul, h2a]
    have hup : |(m : ℚ) * 2 ^ e| < 2 ^ ((24 : Int) + e) := by
      rw [habs, zpow_add₀ two_ne_zero]
      apply mul_lt_mul_of_pos_right _ (zpow_pos two_pos e)
      have hmq : (m.natAbs : ℚ) < (2 : ℚ) ^ (24 : ℕ) := by exact_mod_cast hm
      rw [show ((2 : ℚ) ^ (24 : Int)) = (2 : ℚ) ^ (24 : ℕ) by norm_num]
      rw [← Int.cast_abs, ← Int.cast_natAbs]
      exact hmq
    have hq : qlog2 ((m : ℚ) * 2 ^ e) < 24 + e := by
      by_contra hcon
      push_neg at hcon
      have hmono : (2 : ℚ) ^ ((24 : Int) + e) ≤ (2 : ℚ) ^ qlog2 ((m : ℚ) * 2 ^ e) :=
        zpow_le_zpow_right₀ one_le_two (by omega)
      have hle := two_zpow_qlog2_le _ h0
      linarith
    have hE : max (qlog2 ((m : ℚ) * 2 ^ e) - 23) (-149) ≤ e :=
      max_le (by omega) he
    apply roundAt_eq_self _ _ (m * 2 ^ (e - max (qlog2 ((m : ℚ) * 2 ^ e) - 23) (-149)).toNat)
    have hnn : (0 : Int) ≤ e - max (qlog2 ((m : ℚ) * 2 ^ e) - 23) (-149) := by omega
    push_cast
    rw [← zpow_natCast (2 : ℚ) (e - max (qlog2 ((m : ℚ) * 2 ^ e) - 23) (-149)).toNat,
      Int.toNat_of_nonneg hnn, mul_assoc, ← zpow_add₀ two_ne_zero]
    rw [sub_add_cancel]

/-! ## Lemmas about the codec building blocks -/

/-- Reading the descriptor out of the writes of `save_raster`. -/
theorem fsOf_saveRaster_desc (r : Raster) (b : BasePath) :
    fsOf (saveRaster r b) (FileKey.mk b "_raster.json") = some (.json (rasterDesc r)) := by
  simp [saveRaster, fsOf]

/-- Reading the data blob out of the writes of `save_raster`. -/
theorem fsOf_saveRaster_data (r : Raster) (b : BasePath) :
    fsOf (saveRaster r b) (FileKey.mk b "_data.npz") = some (.npz [("data", r.data)]) := by
  simp [saveRaster, fsOf]

/-- Reading the mask blob out of the writes of `save_raster`. -/
theorem fsOf_saveRaster_mask (r : Raster) (b : BasePath) :
    fsOf (saveRaster r b) (FileKey.mk b "_mask.npz") =
      some (.npz [("mask", r.viewfinder.mask)]) := by
  simp [saveRaster, fsOf]

/-- Reading the descriptor out of the writes of `save_sgrid`. -/
theorem fsOf_saveSgrid_desc (g : SGrid) (b : BasePath) :
    fsOf (saveSgrid g b) (FileKey.mk b "_grid.json") = some (.json (sgridDesc g)) := by
  simp [saveSgrid, fsOf]

/-- Reading the mask blob out of the writes of `save_sgrid`. -/
theorem fsOf_saveSgrid_mask (g : SGrid) (b : BasePath) :
    fsOf (saveSgrid g b) (FileKey.mk b "_mask.npz") =
      some (.npz [("mask", g.viewfinder.mask)]) := by
  simp [saveSgrid, fsOf]

/-- Shape decoding inverts shape encoding. -/
theorem parseDims_encode (sh : List Nat) :
    parseDims (sh.map fun (n : ℕ) => Json.num (n : ℚ)) = .ok sh := by
  induction sh with
  | nil => rfl
  | cons n rest ih =>
      rw [List.map_cons]
      unfold parseDims
      rw [if_pos ⟨Rat.den_natCast n, by simp⟩, ih]
      simp

/-- Shape decoding inverts shape encoding. -/
theorem parseShape_encode (sh : List Nat) : parseShape (encodeShape sh) = .ok sh :=
  parseDims_encode sh

/-- Affine decoding inverts affine encoding. -/
theorem parseAffine_encode (t : AffineT) : parseAffine (encodeAffine t) = .ok t := rfl

/-- A saved NaN sentinel reloads as NaN whatever the dtype field holds. -/
theorem resolveNodata_encode_nan (jd : Option Json) :
    resolveNodata (encodeNodata .nan) jd = .ok .nan := rfl

/-- A saved int16 sentinel reloads exactly. -/
theorem resolveNodata_encode_int16 (n : Int) (h : n.natAbs ≤ 2 ^ 53) :
    resolveNodata (encodeNodata (.i16 n)) (some (.str "int16")) = .ok (.i16 n) := by
  simp [encodeNodata, PyNum.isnan, pyFloat, resolveNodata, npDtypeKind,
    f64ofInt_eq_self n h, truncQ_intCast]

/-- A saved int32 sentinel reloads exactly. -/
theorem resolveNodata_encode_int32 (n : Int) (h : n.natAbs ≤ 2 ^ 53) :
    resolveNodata (encodeNodata (.i32 n)) (some (.str "int32")) = .ok (.i32 n) := by
  simp [encodeNodata, PyNum.isnan, pyFloat, resolveNodata, npDtypeKind,
    f64ofInt_eq_self n h, truncQ_intCast]

/-- A saved int64 sentinel of magnitude at most `2 ^ 53` reloads exactly. -/
theorem resolveNodata_encode_int64 (n : Int) (h : n.natAbs ≤ 2 ^ 53) :
    resolveNodata (encodeNodata (.i64 n)) (some (.str "int64")) = .ok (.i64 n) := by
  simp [encodeNodata, PyNum.isnan, pyFloat, resolveNodata, npDtypeKind,
    f64ofInt_eq_self n h, truncQ_intCast]

/-- A saved float32 sentinel reloads exactly. -/
theorem resolveNodata_encode_f32 (q : ℚ) (h : IsF32 q) :
    resolveNodata (encodeNodata (.f32 q)) (some (.str "float32")) = .ok (.f32 q) := by
  simp [encodeNodata, PyNum.isnan, pyFloat, resolveNodata, npDtypeKind, npF32_eq_self q h]

/-- A saved float64 sentinel reloads exactly. -/
theorem resolveNodata_encode_f64 (q : ℚ) :
    resolveNodata (encodeNodata (.f64 q)) (some (.str "float64")) = .ok (.f64 q) := rfl

/-- Dispatch of the per-dtype reload lemmas over the whitelist. -/
theorem resolveNodata_encode (d : String) (nd : PyNum)
    (hd : d ∈ dtypeWhitelist) (hmatch : nodataMatches d nd) (hwf : nd.wf)
    (h64 : ∀ n, nd = .i64 n → n.natAbs ≤ 2 ^ 53) :
    resolveNodata (encodeNodata nd) (some (.str d)) = .ok nd := by
  fin_cases hd <;> cases nd <;>
    first
      | exact hmatch.elim
      | exact resolveNodata_encode_nan _
      | exact resolveNodata_encode_int16 _ (by exact le_trans hwf (by norm_num))
      | exact resolveNodata_encode_int32 _ (by exact le_trans hwf (by norm_num))
      | exact resolveNodata_encode_int64 _ (h64 _ rfl)
      | exact resolveNodata_encode_f32 _ hwf
      | exact resolveNodata_encode_f64 _

/-- General round trip for `save_raster` / `load_raster`: whenever the mask
matches the declared grid shape and the nodata sentinel survives its
encode/resolve cycle, the loaded entity equals the saved one. -/
theorem loadRaster_saveRaster (r : Raster) (b : BasePath)
    (hm : r.viewfinder.mask.shape = r.viewfinder.shape)
    (hn : resolveNodata (encodeNodata r.viewfinder.nodata)
      (some (.str r.data.dtype)) = .ok r.viewfinder.nodata) :
    loadRaster (fsOf (saveRaster r b)) b = .ok r := by
  obtain ⟨data, ⟨aff, sh, nd, mask, crs⟩, meta, multi⟩ := r
  simp only at hm hn
  cases multi <;>
    simp [loadRaster, fsOf_saveRaster_desc, fsOf_saveRaster_data, fsOf_saveRaster_mask,
      rasterDesc, rasterTag, jGet, assocFind, npzGet, hn,
      parseAffine_encode, parseShape_encode, mkViewFinder, toProj, hm]

/-! ## Claim theorems -/

/-- C1 (amended): for every single- or multi-band entity whose data dtype is
in the whitelist, whose nodata sentinel matches that dtype (or is NaN) and is
well-formed for it, and whose mask matches the declared grid shape,
`load_raster` after `save_raster` reproduces the data array bit-exactly, the
Geo-Descriptor fields exactly, the metadata mapping exactly, and the nodata
sentinel with correct width and signedness — provided an int64 nodata value
is exactly representable in binary64 (magnitude at most `2 ^ 53`), the
restriction forced by the float conversion at save time. -/
theorem c1_raster_roundtrip (r : Raster) (b : BasePath)
    (hdt : r.data.dtype ∈ dtypeWhitelist)
    (hmatch : nodataMatches r.data.dtype r.viewfinder.nodata)
    (hwf : r.viewfinder.nodata.wf)
    (h64 : ∀ n, r.viewfinder.nodata = .i64 n → n.natAbs ≤ 2 ^ 53)
    (hm : r.viewfinder.mask.shape = r.viewfinder.shape) :
    loadRaster (fsOf (saveRaster r b)) b = .ok r :=
  loadRaster_saveRaster r b hm (resolveNodata_encode _ _ hdt hmatch hwf h64)

/-- C1 witness: the spec's section 8 example — a 3 by 3 int32 entity with
nodata -1 — satisfies every hypothesis and round-trips to itself. -/
theorem c1_raster_roundtrip_witness :
    rEx.data.dtype ∈ dtypeWhitelist ∧
    nodataMatches rEx.data.dtype rEx.viewfinder.nodata ∧
    rEx.viewfinder.nodata.wf ∧
    rEx.viewfinder.mask.shape = rEx.viewfinder.shape ∧
    loadRaster (fsOf (saveRaster rEx bB)) bB = .ok rEx :=
  ⟨by decide, trivial, show ((-1 : Int)).natAbs ≤ 2 ^ 31 by decide, rfl,
    c1_raster_roundtrip rEx bB (by decide) trivial
      (show ((-1 : Int)).natAbs ≤ 2 ^ 31 by decide)
      (fun _ h => PyNum.noConfusion h) rfl⟩

/-- C1 counterexample: the int64 entity `c1r` with nodata `2 ^ 53 + 1` is
inside the claim's scope, yet reloading after saving yields nodata
`2 ^ 53`: the sentinel is not reproduced, because `save_raster` routes it
through a binary64 `float(...)`. -/
theorem c1_cex :
    (loadRaster (fsOf (saveRaster c1r bB)) bB).map (fun r => r.viewfinder.nodata)
        ≠ .ok c1r.viewfinder.nodata ∧
    c1r.data.dtype ∈ dtypeWhitelist ∧
    c1r.viewfinder.nodata = .i64 9007199254740993 ∧
    (loadRaster (fsOf (saveRaster c1r bB)) bB).map (fun r => r.viewfinder.nodata)
        = .ok (.i64 9007199254740992) := by
  have hval : (loadRaster (fsOf (saveRaster c1r bB)) bB).map (fun r => r.viewfinder.nodata)
      = .ok (.i64 9007199254740992) := rfl
  refine ⟨?_, by decide, rfl, hval⟩
  intro h
  have h2 := hval.symm.trans h
  exact absurd (Except.ok.inj h2) (by decide)

/-- C4: an entity whose nodata sentinel is NaN round-trips through
`save_raster` / `load_raster` to itself whatever its data dtype: the save
side checks the value only, and the load side resolves the stored marker
before any dtype inspection. -/
theorem c4_nan_roundtrip (r : Raster) (b : BasePath)
    (hnan : r.viewfinder.nodata = .nan)
    (hm : r.viewfinder.mask.shape = r.viewfinder.shape) :
    loadRaster (fsOf (saveRaster r b)) b = .ok r :=
  loadRaster_saveRaster r b hm (by rw [hnan]; exact resolveNodata_encode_nan _)

/-- C4 witness: a NaN-nodata multi-band entity with integer dtype `int64`
round-trips to itself. -/
theorem c4_nan_roundtrip_witness :
    c4r.viewfinder.nodata = .nan ∧
    c4r.data.dtype = "int64" ∧
    loadRaster (fsOf (saveRaster c4r bB)) bB = .ok c4r :=
  ⟨rfl, rfl, c4_nan_roundtrip c4r bB rfl rfl⟩

/-- Behaviour of the nodata field encoder on each scalar shape. -/
theorem encodeNodata_eq_iff (nd : PyNum) :
    (encodeNodata nd = .str "nan" ↔ nd = .nan) ∧
    (nd ≠ .nan → encodeNodata nd = .num (pyFloat nd)) := by
  cases nd <;> simp [encodeNodata, PyNum.isnan]

/-- The nodata field of a grid descriptor is its encoder's output. -/
theorem jGet_sgridDesc_nodata (g : SGrid) :
    jGet (sgridDesc g) "nodata" = some (encodeNodata g.viewfinder.nodata) := by
  simp [sgridDesc, jGet, assocFind]

/-- The nodata field of a raster descriptor is its encoder's output. -/
theorem jGet_rasterDesc_nodata (r : Raster) :
    jGet (rasterDesc r) "nodata" = some (encodeNodata r.viewfinder.nodata) := by
  simp [rasterDesc, jGet, assocFind]

/-- C3: in the descriptors built by both `save_sgrid` and `save_raster`, the
nodata field is the literal string marker exactly when the sentinel is NaN,
and a plain JSON number — the `float(...)` image of the sentinel — for every
non-NaN sentinel. -/
theorem c3_nan_marker (g : SGrid) (r : Raster) :
    ((jGet (sgridDesc g) "nodata" = some (.str "nan")) ↔ g.viewfinder.nodata = .nan) ∧
    (g.viewfinder.nodata ≠ .nan →
      jGet (sgridDesc g) "nodata" = some (.num (pyFloat g.viewfinder.nodata))) ∧
    ((jGet (rasterDesc r) "nodata" = some (.str "nan")) ↔ r.viewfinder.nodata = .nan) ∧
    (r.viewfinder.nodata ≠ .nan →
      jGet (rasterDesc r) "nodata" = some (.num (pyFloat r.viewfinder.nodata))) := by
  obtain ⟨hg1, hg2⟩ := encodeNodata_eq_iff g.viewfinder.nodata
  obtain ⟨hr1, hr2⟩ := encodeNodata_eq_iff r.viewfinder.nodata
  refine ⟨?_, ?_, ?_, ?_⟩
  · rw [jGet_sgridDesc_nodata, ← hg1]
    exact ⟨fun h => Option.some.inj h, fun h => by rw [h]⟩
  · intro h
    rw [jGet_sgridDesc_nodata, hg2 h]
  · rw [jGet_rasterDesc_nodata, ← hr1]
    exact ⟨fun h => Option.some.inj h, fun h => by rw [h]⟩
  · intro h
    rw [jGet_rasterDesc_nodata, hr2 h]

/-- C3 witness: the concrete grid entity `gEx` has non-NaN nodata `-9999`
and its descriptor carries it as a plain number. -/
theorem c3_nan_marker_witness :
    jGet (sgridDesc gEx) "nodata" = some (.num (pyFloat gEx.viewfinder.nodata)) :=
  (c3_nan_marker gEx rEx).2.1 (by decide)

/-- C2 (amended): with a stored numeric nodata, `load_raster` casts to the
exact width and signedness named by the data-dtype field for each whitelist
dtype; but only dtype names of a kind that is neither integer nor floating
(boolean, complex) raise the unsupported-dtype error — integer dtype names
outside the whitelist (such as the 8-bit `int8`) are silently coerced
through the `else` branch to int64, and floating ones (such as `float16`)
to float64. -/
theorem c2_dtype_cast :
    (∀ q : ℚ,
      resolveNodata (.num q) (some (.str "int16")) = .ok (.i16 (truncQ q)) ∧
      resolveNodata (.num q) (some (.str "int32")) = .ok (.i32 (truncQ q)) ∧
      resolveNodata (.num q) (some (.str "int64")) = .ok (.i64 (truncQ q)) ∧
      resolveNodata (.num q) (some (.str "float32")) = .ok (.f32 (npF32 q)) ∧
      resolveNodata (.num q) (some (.str "float64")) = .ok (.f64 q)) ∧
    (∀ (q : ℚ) (d : String),
      npDtypeKind d = some .boolean ∨ npDtypeKind d = some .complexK →
      resolveNodata (.num q) (some (.str d)) = .error .unsupportedType) ∧
    (∀ q : ℚ,
      resolveNodata (.num q) (some (.str "int8")) = .ok (.i64 (truncQ q)) ∧
      resolveNodata (.num q) (some (.str "uint16")) = .ok (.i64 (truncQ q)) ∧
      resolveNodata (.num q) (some (.str "float16")) = .ok (.f64 q)) := by
  refine ⟨fun q => ⟨rfl, rfl, rfl, rfl, rfl⟩, ?_, fun q => ⟨rfl, rfl, rfl⟩⟩
  intro q d hd
  rcases hd with h | h <;> simp [resolveNodata, h]

/-- C2 witness: a stored nodata 7 with dtype `int16` reloads as an int16
value 7, and with dtype `bool` raises the unsupported-dtype error. -/
theorem c2_dtype_cast_witness :
    resolveNodata (.num 7) (some (.str "int16")) = .ok (.i16 7) ∧
    resolveNodata (.num 7) (some (.str "bool")) = .error .unsupportedType :=
  ⟨((c2_dtype_cast.1 7).1).trans
      (congrArg (fun z : Int => Except.ok (PyNum.i16 z)) (show truncQ 7 = 7 by decide)),
    c2_dtype_cast.2.1 7 "bool" (Or.inl rfl)⟩

/-- C2 counterexample: the 8-bit integer dtype name `int8` lies outside the
whitelist, yet a stored numeric nodata is coerced to int64 instead of
raising the unsupported-dtype error. -/
theorem c2_cex :
    resolveNodata (.num 5) (some (.str "int8")) = .ok (.i64 5) ∧
    "int8" ∉ dtypeWhitelist ∧
    resolveNodata (.num 5) (some (.str "int8")) ≠ .error .unsupportedType := by
  have h1 : resolveNodata (.num 5) (some (.str "int8")) = .ok (.i64 5) := by rfl
  exact ⟨h1, by decide, fun h => Except.noConfusion (h1.symm.trans h)⟩

/-- C10 (amended): with the stored `'nan'` marker, `load_raster` performs no
dtype validation at all — the resolver succeeds for any dtype field, and a
whole NaN-nodata entity reloads successfully whatever its declared dtype;
with a stored numeric nodata, the unsupported-dtype error is raised only
for dtype names of boolean or complex kind, while unsigned integer dtypes
such as `uint8` are silently coerced to int64 rather than raising. -/
theorem c10_nan_skips_dtype :
    (∀ jd : Option Json, resolveNodata (.str "nan") jd = .ok .nan) ∧
    (∀ (d : String) (b : BasePath),
      loadRaster (fsOf (saveRaster (nanRaster d) b)) b = .ok (nanRaster d)) ∧
    (∀ (q : ℚ) (d : String),
      npDtypeKind d = some .boolean ∨ npDtypeKind d = some .complexK →
      resolveNodata (.num q) (some (.str d)) = .error .unsupportedType) ∧
    (∀ q : ℚ,
      resolveNodata (.num q) (some (.str "uint8")) = .ok (.i64 (truncQ q)) ∧
      resolveNodata (.num q) (some (.str "uint64")) = .ok (.i64 (truncQ q))) := by
  refine ⟨fun jd => rfl, ?_, ?_, fun q => ⟨rfl, rfl⟩⟩
  · intro d b
    exact loadRaster_saveRaster (nanRaster d) b rfl (resolveNodata_encode_nan _)
  · intro q d hd
    rcases hd with h | h <;> simp [resolveNodata, h]

/-- C10 witness: a NaN-nodata entity with the complex dtype `complex64`
reloads successfully, while a numeric nodata 3 with dtype `uint8` is
coerced to int64. -/
theorem c10_nan_skips_dtype_witness :
    loadRaster (fsOf (saveRaster (nanRaster "complex64") bB)) bB
        = .ok (nanRaster "complex64") ∧
    resolveNodata (.num 3) (some (.str "uint8")) = .ok (.i64 3) :=
  ⟨c10_nan_skips_dtype.2.1 "complex64" bB,
    ((c10_nan_skips_dtype.2.2.2 3).1).trans
      (congrArg (fun z : Int => Except.ok (PyNum.i64 z)) (show truncQ 3 = 3 by decide))⟩

/-- C10 counterexample: the entity `c10r` declares the unsigned dtype
`uint8` with a numeric nodata; loading its saved descriptor succeeds and
yields an int64 nodata, where the claim predicts the unsupported-dtype
error. -/
theorem c10_cex :
    (loadRaster (fsOf (saveRaster c10r bB)) bB).map (fun r => r.viewfinder.nodata)
        = .ok (.i64 7) ∧
    c10r.data.dtype = "uint8" ∧
    npDtypeKind "uint8" = some .integer ∧
    "uint8" ∉ dtypeWhitelist :=
  ⟨rfl, rfl, rfl, by decide⟩

/-- C5: a descriptor whose kind tag is outside the three recognized values
fails to load with the format error through either loader: `load_sgrid`
rejects any tag other than `sGrid`, and `load_raster` rejects any tag that
is neither `Raster` nor `MultiRaster`. -/
theorem c5_bad_tag (fs : FileKey → Option FileContent) (b : BasePath) (s : String)
    (rest1 rest2 : List (String × Json))
    (hg : fs (FileKey.mk b "_grid.json")
      = some (.json (.obj (("type", .str s) :: rest1))))
    (hr : fs (FileKey.mk b "_raster.json")
      = some (.json (.obj (("type", .str s) :: rest2))))
    (h1 : s ≠ "sGrid") (h2 : s ≠ "Raster") (h3 : s ≠ "MultiRaster") :
    loadSgrid fs b = .error .formatError ∧ loadRaster fs b = .error .formatError := by
  constructor
  · simp [loadSgrid, hg, jGet, assocFind, h1]
  · simp [loadRaster, hr, jGet, assocFind, h2, h3]

/-- C5 witness: the tag `Foo` is rejected by both loaders. -/
theorem c5_bad_tag_witness :
    loadSgrid badTagFs bB = .error .formatError ∧
    loadRaster badTagFs bB = .error .formatError :=
  c5_bad_tag badTagFs bB "Foo" [] [] rfl rfl (by decide) (by decide) (by decide)

/-- C6: in both decoders, a mask blob whose shape differs from the shape
declared in the descriptor makes the load fail with the format error
(via the spec-modelled `ViewFinder` construction), whenever the rest of the
descriptor is well-formed enough for the load to reach that construction. -/
theorem c6_mask_shape (b : BasePath) (aff : AffineT) (sh : List Nat)
    (ndj1 ndj2 : Json) (nd1 nd2 : PyNum) (cs dt : String)
    (dataA maskA : NdArray) (mj : Json)
    (hg : resolveNodataSgrid ndj1 = .ok nd1)
    (hr : resolveNodata ndj2 (some (.str dt)) = .ok nd2)
    (hs : maskA.shape ≠ sh) :
    loadSgrid (fsOf [(FileKey.mk b "_grid.json",
        .json (.obj [("type", .str "sGrid"), ("affine", encodeAffine aff),
          ("shape", encodeShape sh), ("nodata", ndj1), ("crs", .str cs)])),
      (FileKey.mk b "_mask.npz", .npz [("mask", maskA)])]) b
      = .error .formatError ∧
    loadRaster (fsOf [(FileKey.mk b "_raster.json",
        .json (.obj [("type", .str "Raster"), ("data_dtype", .str dt),
          ("affine", encodeAffine aff), ("viewfinder_shape", encodeShape sh),
          ("nodata", ndj2), ("crs", .str cs), ("metadata", mj)])),
      (FileKey.mk b "_data.npz", .npz [("data", dataA)]),
      (FileKey.mk b "_mask.npz", .npz [("mask", maskA)])]) b
      = .error .formatError := by
  constructor
  · simp [loadSgrid, fsOf, jGet, assocFind, npzGet, hg, parseAffine_encode,
      parseShape_encode, mkViewFinder, hs]
  · simp [loadRaster, fsOf, jGet, assocFind, npzGet, hr, parseAffine_encode,
      parseShape_encode, mkViewFinder, hs]

/-- C6 witness: a 3 by 3 mask against a declared 2 by 2 shape fails both
loads with the format error. -/
theorem c6_mask_shape_witness :
    loadSgrid (fsOf [(FileKey.mk bB "_grid.json",
        .json (.obj [("type", .str "sGrid"), ("affine", encodeAffine aff0),
          ("shape", encodeShape [2, 2]), ("nodata", Json.str "nan"),
          ("crs", .str "EPSG:4326")])),
      (FileKey.mk bB "_mask.npz", .npz [("mask", mask33)])]) bB
      = .error .formatError ∧
    loadRaster (fsOf [(FileKey.mk bB "_raster.json",
        .json (.obj [("type", .str "Raster"), ("data_dtype", .str "int32"),
          ("affine", encodeAffine aff0), ("viewfinder_shape", encodeShape [2, 2]),
          ("nodata", Json.num 0), ("crs", .str "EPSG:4326"),
          ("metadata", Json.obj [])])),
      (FileKey.mk bB "_data.npz", .npz [("data", NdArray.mk [3, 3] "int32" [0, 0, 0, 0, 0, 0, 0, 0, 0])]),
      (FileKey.mk bB "_mask.npz", .npz [("mask", mask33)])]) bB
      = .error .formatError :=
  c6_mask_shape bB aff0 [2, 2] (Json.str "nan") (Json.num 0) .nan (.i32 0)
    "EPSG:4326" "int32" (NdArray.mk [3, 3] "int32" [0, 0, 0, 0, 0, 0, 0, 0, 0])
    mask33 (Json.obj []) rfl rfl (by decide)

/-! ## Lemmas about the archive index -/

/-- Association lookup misses a list when every key differs. -/
theorem assocFind_none_of {α : Type} (l : List (String × α)) (key : String)
    (h : ∀ p ∈ l, p.1 ≠ key) : assocFind l key = none := by
  induction l with
  | nil => rfl
  | cons p rest ih =>
      obtain ⟨k, v⟩ := p
      unfold assocFind
      rw [if_neg fun hEq => h (k, v) (List.mem_cons_self _ _) hEq.symm]
      exact ih fun p2 hm => h p2 (List.mem_cons_of_mem _ hm)

/-- Every index entry an object contributes carries that object's name as
key. -/
theorem entityIdx_key (p : String × PyObj) (pr : String × String)
    (h : pr ∈ entityIdx p) : pr.1 = p.1 := by
  obtain ⟨n, o⟩ := p
  cases o <;> simp [entityIdx] at h <;> simp [h]

/-- Every file an object records in `saved_files` sits under that object's
own base path. -/
theorem entityRecorded_base (b : BasePath) (p : String × PyObj) (fk : FileKey)
    (h : fk ∈ entityRecorded b p) : fk.base = b.sub p.1 := by
  obtain ⟨n, o⟩ := p
  cases o with
  | grid g =>
      simp [entityRecorded] at h
      rcases h with h | h <;> simp [h]
  | raster r =>
      simp [entityRecorded] at h
      rcases h with h | h | h <;> simp [h]
  | other t => simp [entityRecorded] at h

/-- Appending a distinct final name fragment is injective. -/
theorem sub_name_inj (b : BasePath) (n1 n2 : String) (h : b.sub n1 = b.sub n2) :
    n1 = n2 := by
  unfold BasePath.sub at h
  injection h with _ h2
  simpa using List.append_cancel_left h2

/-- With distinct keys, the entry holding a given key is unique. -/
theorem key_unique (objs : List (String × PyObj)) (name t : String)
    (hnd : (objs.map Prod.fst).Nodup)
    (hmem : (name, PyObj.other t) ∈ objs) :
    ∀ p ∈ objs, p.1 = name → p = (name, PyObj.other t) := by
  induction objs with
  | nil => exact fun p hp => absurd hp (List.not_mem_nil p)
  | cons q rest ih =>
      rw [List.map_cons, List.nodup_cons] at hnd
      obtain ⟨hq, hndr⟩ := hnd
      intro p hp hkey
      rcases List.mem_cons.mp hp with rfl | hpr
      · rcases List.mem_cons.mp hmem with hqm | hmr
        · exact hqm.symm
        · exfalso
          rw [hkey] at hq
          exact hq (List.mem_map_of_mem Prod.fst hmr)
      · rcases List.mem_cons.mp hmem with hqm | hmr
        · exfalso
          cases hqm
          apply hq
          have hmm : p.1 ∈ List.map Prod.fst rest := List.mem_map_of_mem Prod.fst hpr
          rw [hkey] at hmm
          exact hmm
        · exact ih hndr hmr p hpr hkey

/-- The `objects` mapping accumulated by `save_objects`. -/
theorem saveObjects_objectsIdx (objs : List (String × PyObj)) (b : BasePath) :
    (saveObjects objs b).objectsIdx = (objs.map entityIdx).flatten := rfl

/-- The `saved_files` record accumulated by `save_objects`. -/
theorem saveObjects_savedFiles (objs : List (String × PyObj)) (b : BasePath) :
    (saveObjects objs b).savedFiles = (objs.map (entityRecorded b)).flatten := rfl

/-- The warnings printed by `save_objects`. -/
theorem saveObjects_warnings (objs : List (String × PyObj)) (b : BasePath) :
    (saveObjects objs b).warnings = (objs.map entityWarn).flatten := rfl

/-- The write events of `save_objects`: all per-entity writes in order, then
the index file. -/
theorem saveObjects_writes (objs : List (String × PyObj)) (b : BasePath) :
    (saveObjects objs b).writes = (objs.map (entityWrites b)).flatten ++
      [(FileKey.mk b "_index.json",
        .json (indexJson (objs.map entityIdx).flatten
          ((objs.map (entityRecorded b)).flatten)))] := rfl

/-- C7: an entry of `save_objects` whose value is not one of the three
supported variants is skipped non-fatally: its name is absent from the
index's `objects` mapping, no `saved_files` record sits under its derived
base path, its warning is printed, every supported entry's files are still
written, and the index file is the final write. -/
theorem c7_skip_unsupported (objs : List (String × PyObj)) (b : BasePath)
    (name t : String)
    (hnd : (objs.map Prod.fst).Nodup)
    (hmem : (name, PyObj.other t) ∈ objs) :
    assocFind (saveObjects objs b).objectsIdx name = none ∧
    (∀ fk ∈ (saveObjects objs b).savedFiles, fk.base ≠ b.sub name) ∧
    (saveObjects objs b).writes.getLast?
      = some (FileKey.mk b "_index.json",
          .json (indexJson (saveObjects objs b).objectsIdx
            (saveObjects objs b).savedFiles)) ∧
    (∀ p ∈ objs, ∀ w ∈ entityWrites b p, w ∈ (saveObjects objs b).writes) ∧
    warnMsg name t ∈ (saveObjects objs b).warnings := by
  refine ⟨?_, ?_, ?_, ?_, ?_⟩
  · rw [saveObjects_objectsIdx]
    apply assocFind_none_of
    intro pr hpr hkey
    rcases List.mem_flatten.mp hpr with ⟨l, hl, hprl⟩
    rcases List.mem_map.mp hl with ⟨q, hq, rfl⟩
    have h1 : pr.1 = q.1 := entityIdx_key q pr hprl
    have h2 : q = (name, PyObj.other t) :=
      key_unique objs name t hnd hmem q hq (by rw [← h1, hkey])
    rw [h2] at hprl
    simp [entityIdx] at hprl
  · rw [saveObjects_savedFiles]
    intro fk hfk hbase
    rcases List.mem_flatten.mp hfk with ⟨l, hl, hfkl⟩
    rcases List.mem_map.mp hl with ⟨q, hq, rfl⟩
    have h1 : fk.base = b.sub q.1 := entityRecorded_base b q fk hfkl
    have h2 : q.1 = name := sub_name_inj b q.1 name (by rw [← h1, hbase])
    have h3 : q = (name, PyObj.other t) := key_unique objs name t hnd hmem q hq h2
    rw [h3] at hfkl
    simp [entityRecorded] at hfkl
  · rw [saveObjects_writes, saveObjects_objectsIdx, saveObjects_savedFiles]
    exact List.getLast?_concat _
  · intro p hp w hw
    rw [saveObjects_writes]
    apply List.mem_append_left
    exact List.mem_flatten.mpr ⟨entityWrites b p, List.mem_map_of_mem _ hp, hw⟩
  · rw [saveObjects_warnings]
    exact List.mem_flatten.mpr
      ⟨[warnMsg name t], List.mem_map_of_mem entityWarn hmem, List.mem_cons_self _ _⟩

/-- C7 witness: in the archive `objsEx` — a raster `a`, a grid `b` and an
unsupported object `c` — the entry `c` is skipped as the claim states. -/
theorem c7_skip_unsupported_witness :
    assocFind (saveObjects objsEx bB).objectsIdx "c" = none ∧
    (∀ fk ∈ (saveObjects objsEx bB).savedFiles, fk.base ≠ bB.sub "c") ∧
    (saveObjects objsEx bB).writes.getLast?
      = some (FileKey.mk bB "_index.json",
          .json (indexJson (saveObjects objsEx bB).objectsIdx
            (saveObjects objsEx bB).savedFiles)) ∧
    (∀ p ∈ objsEx, ∀ w ∈ entityWrites bB p, w ∈ (saveObjects objsEx bB).writes) ∧
    warnMsg "c" "dict" ∈ (saveObjects objsEx bB).warnings :=
  c7_skip_unsupported objsEx bB "c" "dict" (by decide)
    (List.Mem.tail _ (List.Mem.tail _ (List.Mem.head _)))

/-- Unfolding of the `load_objects` iteration: when every recognized entry's
loader succeeds, the iteration returns exactly the reconstructed entries,
skipping unrecognized kinds. -/
theorem loadEach_eq (fs : FileKey → Option FileContent) (b : BasePath)
    (kvs : List (String × Json)) (G : String → SGrid) (R : String → Raster) :
    (∀ n j, (n, j) ∈ kvs → j = .str "sGrid" → loadSgrid fs (b.sub n) = .ok (G n)) →
    (∀ n j, (n, j) ∈ kvs → (j = .str "Raster" ∨ j = .str "MultiRaster") →
      loadRaster fs (b.sub n) = .ok (R n)) →
    loadEach fs b kvs = .ok (kvs.filterMap (reconOf G R)) := by
  induction kvs with
  | nil => exact fun _ _ => rfl
  | cons p rest ih =>
      intro hG hR
      obtain ⟨n, j⟩ := p
      have ihr := ih (fun n j hm hj => hG n j (List.mem_cons_of_mem _ hm) hj)
        (fun n j hm hj => hR n j (List.mem_cons_of_mem _ hm) hj)
      cases j with
      | str k =>
          by_cases h1 : k = "sGrid"
          · subst h1
            rw [List.filterMap_cons]
            simp [loadEach, reconOf, hG n _ (List.mem_cons_self _ _) rfl, ihr]
          · by_cases h2 : k = "Raster"
            · subst h2
              rw [List.filterMap_cons]
              simp [loadEach, reconOf,
                hR n _ (List.mem_cons_self _ _) (Or.inl rfl), ihr]
            · by_cases h3 : k = "MultiRaster"
              · subst h3
                rw [List.filterMap_cons]
                simp [loadEach, reconOf,
                  hR n _ (List.mem_cons_self _ _) (Or.inr rfl), ihr]
              · rw [List.filterMap_cons]
                simp [loadEach, reconOf, h1, h2, h3, ihr]
      | null => simpa [loadEach, reconOf] using ihr
      | bool bv => simpa [loadEach, reconOf] using ihr
      | num qv => simpa [loadEach, reconOf] using ihr
      | arr xs => simpa [loadEach, reconOf] using ihr
      | obj kvs2 => simpa [loadEach, reconOf] using ihr

/-- The reconstructed entries carry exactly the recognized-kind keys. -/
theorem filterMap_reconOf_keys (G : String → SGrid) (R : String → Raster)
    (kvs : List (String × Json)) :
    (kvs.filterMap (reconOf G R)).map Prod.fst
      = (kvs.filter fun p => recognizedKind p.2).map Prod.fst := by
  induction kvs with
  | nil => rfl
  | cons p rest ih =>
      obtain ⟨n, j⟩ := p
      cases j with
      | str k =>
          by_cases h1 : k = "sGrid"
          · subst h1; simp [reconOf, recognizedKind, ih]
          · by_cases h2 : k = "Raster"
            · subst h2; simp [reconOf, recognizedKind, ih]
            · by_cases h3 : k = "MultiRaster"
              · subst h3; simp [reconOf, recognizedKind, ih]
              · simp [reconOf, recognizedKind, h1, h2, h3, ih]
      | null => simp [reconOf, recognizedKind, ih]
      | bool bv => simp [reconOf, recognizedKind, ih]
      | num qv => simp [reconOf, recognizedKind, ih]
      | arr xs => simp [reconOf, recognizedKind, ih]
      | obj kvs2 => simp [reconOf, recognizedKind, ih]

/-- C8: `load_objects` returns the mapping whose keys are exactly the index
entries bearing a recognized kind tag, each value reconstructed by the
loader matching its kind at base path `b_name`; entries of unsupported kind
are silently ignored, and no error arises from them. -/
theorem c8_load_index (fs : FileKey → Option FileContent) (b : BasePath)
    (idxj : Json) (kvs : List (String × Json))
    (G : String → SGrid) (R : String → Raster)
    (hidx : fs (FileKey.mk b "_index.json") = some (.json idxj))
    (hobj : jGet idxj "objects" = some (.obj kvs))
    (hG : ∀ n j, (n, j) ∈ kvs → j = .str "sGrid" → loadSgrid fs (b.sub n) = .ok (G n))
    (hR : ∀ n j, (n, j) ∈ kvs → (j = .str "Raster" ∨ j = .str "MultiRaster") →
      loadRaster fs (b.sub n) = .ok (R n)) :
    loadObjects fs b = .ok (kvs.filterMap (reconOf G R)) ∧
    (kvs.filterMap (reconOf G R)).map Prod.fst
      = (kvs.filter fun p => recognizedKind p.2).map Prod.fst := by
  refine ⟨?_, filterMap_reconOf_keys G R kvs⟩
  have h1 : loadObjects fs b = loadEach fs b kvs := by
    simp [loadObjects, hidx, hobj]
  rw [h1]
  exact loadEach_eq fs b kvs G R hG hR

/-- C8 witness: the handcrafted archive `c8Fs` — index entries `a` (Raster),
`b` (sGrid) and `z` (unsupported `Widget`) — loads to exactly the mapping
with keys `a` and `b`, each to round-trip equality. -/
theorem c8_load_index_witness :
    loadObjects c8Fs bB = .ok [("a", PyObj.raster rEx), ("b", PyObj.grid gEx)] :=
  (c8_load_index c8Fs bB
    (Json.obj [("objects",
      Json.obj [("a", Json.str "Raster"), ("b", Json.str "sGrid"),
                ("z", Json.str "Widget")])])
    [("a", Json.str "Raster"), ("b", Json.str "sGrid"), ("z", Json.str "Widget")]
    (fun _ => gEx) (fun _ => rEx) rfl rfl
    (by
      intro n j hm hj
      simp [List.mem_cons] at hm
      rcases hm with ⟨rfl, rfl⟩ | ⟨rfl, rfl⟩ | ⟨rfl, rfl⟩
      · exact absurd hj (by simp)
      · rfl
      · exact absurd hj (by simp))
    (by
      intro n j hm hj
      simp [List.mem_cons] at hm
      rcases hm with ⟨rfl, rfl⟩ | ⟨rfl, rfl⟩ | ⟨rfl, rfl⟩
      · rfl
      · rcases hj with hj | hj <;> exact absurd hj (by simp)
      · rcases hj with hj | hj <;> exact absurd hj (by simp))).1

/-- C9: on the archive `[(a, grid)]`, the `saved_files` record names the
descriptor as `B_a.json` while the file actually written is
`B_a_grid.json`: the recorded list is not the list of files produced. -/
theorem c9_saved_files_mismatch :
    (saveObjects [("a", PyObj.grid gEx)] bB).savedFiles
      = [FileKey.mk (bB.sub "a") ".json", FileKey.mk (bB.sub "a") "_mask.npz"] ∧
    ((saveObjects [("a", PyObj.grid gEx)] bB).writes.map Prod.fst)
      = [FileKey.mk (bB.sub "a") "_grid.json", FileKey.mk (bB.sub "a") "_mask.npz",
         FileKey.mk bB "_index.json"] ∧
    (FileKey.mk (bB.sub "a") ".json")
        ∉ ((saveObjects [("a", PyObj.grid gEx)] bB).writes.map Prod.fst) ∧
    (FileKey.mk (bB.sub "a") ".json").render = "B_a.json" ∧
    (FileKey.mk (bB.sub "a") "_grid.json").render = "B_a_grid.json" :=
  ⟨rfl, rfl, by decide, rfl, rfl⟩
